import Mathlib

/-!
Verification of the log-source configuration contract
(`config/logs/integration_config.go` of the categraf repository).

The Go file defines a `LogsConfig` struct, a closed tailing-mode
enumeration with a bidirectional string table, and a `Validate` method.
`ValidateProcessingRules` and `CompileProcessingRules` are external
collaborators declared elsewhere in the repository and absent from the
sources under verification, so `Validate` is embedded as a function
parameterized over those two collaborators; processing rules themselves
are opaque to this layer and are embedded as an arbitrary type `α`.
-/

namespace Logs

/-- Source-type string tags (Go constants `TCPType` .. `StringChannelType`). -/
def TCPType : String := "tcp"

def UDPType : String := "udp"

def FileType : String := "file"

def DockerType : String := "docker"

def JournaldType : String := "journald"

def WindowsEventType : String := "windows_event"

def SnmpTrapsType : String := "snmp_traps"

def StringChannelType : String := "string_channel"

/-- The fixed set of declared source-type tags. -/
def sourceTypeTags : List String :=
  [TCPType, UDPType, FileType, DockerType, JournaldType, WindowsEventType,
   SnmpTrapsType, StringChannelType]

/-- Embedding of the Go struct `LogsConfig`.
`α` stands for the opaque `*ProcessingRule` element type.
The Go field `Type` is spelled `type_` because `Type` is reserved in Lean.
The Go field `Channel` is a runtime channel handle, never inspected by
validation; it is embedded as an opaque numeric handle. -/
structure LogsConfig (α : Type) where
  type_ : String
  Port : Int
  IdleTimeout : String
  Path : String
  Encoding : String
  ExcludePaths : List String
  TailingMode : String
  IncludeUnits : List String
  ExcludeUnits : List String
  ContainerMode : Bool
  Image : String
  Label : String
  Name : String
  Identifier : String
  ChannelPath : String
  Query : String
  Channel : Option Nat
  Service : String
  Source : String
  SourceCategory : String
  Tags : List String
  ProcessingRules : List α
  AutoMultiLine : Bool
  AutoMultiLineSampleSize : Int
  AutoMultiLineMatchThreshold : Float

/-- Embedding of the Go enum `TailingMode` (a closed four-value enumeration). -/
inductive TailingMode where
  | ForceBeginning
  | ForceEnd
  | Beginning
  | End
deriving DecidableEq, Repr

/-- The fixed ordered table `tailingModeTuples` of (string, mode) pairs. -/
def tailingModeTuples : List (String × TailingMode) :=
  [("forceBeginning", TailingMode.ForceBeginning),
   ("forceEnd", TailingMode.ForceEnd),
   ("beginning", TailingMode.Beginning),
   ("end", TailingMode.End)]

/-- Linear scan of the table by string key, as in the Go loop of
`TailingModeFromString`. -/
def lookupByString : List (String × TailingMode) → String → Option TailingMode
  | [], _ => none
  | t :: ts, mode => if t.1 = mode then some t.2 else lookupByString ts mode

/-- Embedding of Go `TailingModeFromString`: parses a string and returns the
corresponding tailing mode with a found-indicator, defaulting to `End` on
no match. -/
def TailingModeFromString (mode : String) : TailingMode × Bool :=
  match lookupByString tailingModeTuples mode with
  | some m => (m, true)
  | none => (TailingMode.End, false)

/-- Linear scan of the table by mode, as in the Go loop of
`TailingMode.String`. -/
def lookupByMode : List (String × TailingMode) → TailingMode → Option String
  | [], _ => none
  | t :: ts, mode => if t.2 = mode then some t.1 else lookupByMode ts mode

/-- Embedding of the Go method `TailingMode.String`: renders a mode as its
canonical string, returning the empty string on no table match. -/
def TailingModeToString (mode : TailingMode) : String :=
  match lookupByMode tailingModeTuples mode with
  | some s => s
  | none => ""

/-- Embedding of Go `ContainsWildcard`:
`strings.ContainsAny(path, "*?[")`. -/
def ContainsWildcard (path : String) : Bool :=
  path.data.any (fun ch => ch == '*' || ch == '?' || ch == '[')

/-- Error message of the missing-type failure. -/
def missingTypeMsg : String := "a config must have a type"

/-- Error message of the missing-path failure. -/
def missingPathMsg : String := "file source must have a path"

/-- Error message of the missing-port failure for tcp sources. -/
def missingTCPPortMsg : String := "tcp source must have a port"

/-- Error message of the missing-port failure for udp sources. -/
def missingUDPPortMsg : String := "udp source must have a port"

/-- Error message of the invalid-tailing-mode failure
(`fmt.Errorf("invalid tailing mode '%v' for %v", ...)`). -/
def invalidTailingModeMsg (mode path : String) : String :=
  "invalid tailing mode \x27" ++ mode ++ "\x27 for " ++ path

/-- Error message of the unsupported-wildcard-tailing failure. -/
def wildcardTailingMsg (path : String) : String :=
  "tailing from the beginning is not supported for wildcard path " ++ path

/-- Embedding of the Go method `LogsConfig.validateTailingMode`. -/
def validateTailingMode {α : Type} (c : LogsConfig α) : Except String Unit :=
  let r := TailingModeFromString c.TailingMode
  if r.2 = false ∧ c.TailingMode ≠ "" then
    Except.error (invalidTailingModeMsg c.TailingMode c.Path)
  else if ContainsWildcard c.Path = true ∧
      (r.1 = TailingMode.Beginning ∨ r.1 = TailingMode.ForceBeginning) then
    Except.error (wildcardTailingMsg c.Path)
  else
    Except.ok ()

/-- The `switch` statement of Go `LogsConfig.Validate` (steps 1-5 of the
spec): the structural checks, before any processing-rule work. -/
def structuralValidate {α : Type} (c : LogsConfig α) : Except String Unit :=
  if c.type_ = "" then
    Except.error missingTypeMsg
  else if c.type_ = FileType then
    if c.Path = "" then
      Except.error missingPathMsg
    else
      validateTailingMode c
  else if c.type_ = TCPType ∧ c.Port = 0 then
    Except.error missingTCPPortMsg
  else if c.type_ = UDPType ∧ c.Port = 0 then
    Except.error missingUDPPortMsg
  else
    Except.ok ()

/-- Embedding of Go `LogsConfig.Validate`.  `vRules` and `cRules` embed the
external collaborators `ValidateProcessingRules` and
`CompileProcessingRules`, whose definitions are not part of the sources
under verification; `Validate` runs the structural switch, then rule
validation, then rule compilation, propagating the first error. -/
def Validate {α : Type} (c : LogsConfig α)
    (vRules cRules : List α → Except String Unit) : Except String Unit :=
  match structuralValidate c with
  | Except.error e => Except.error e
  | Except.ok () =>
    match vRules c.ProcessingRules with
    | Except.error e => Except.error e
    | Except.ok () => cRules c.ProcessingRules

/-- Modelled from the spec: the external rule-validation and
rule-compilation collaborators check each rule of the list in order and
propagate the first per-rule error; on an empty list they trivially
succeed.  The per-rule check is opaque and taken as a parameter. -/
def rulesFold {α : Type} (check : α → Except String Unit) :
    List α → Except String Unit
  | [] => Except.ok ()
  | r :: rs =>
    match check r with
    | Except.error e => Except.error e
    | Except.ok () => rulesFold check rs

/-- A concrete all-zero-valued descriptor over `Unit` rules, used to build
concrete test configurations. -/
def emptyConfig : LogsConfig Unit :=
  { type_ := "", Port := 0, IdleTimeout := "", Path := "", Encoding := "",
    ExcludePaths := [], TailingMode := "", IncludeUnits := [],
    ExcludeUnits := [], ContainerMode := false, Image := "", Label := "",
    Name := "", Identifier := "", ChannelPath := "", Query := "",
    Channel := none, Service := "", Source := "", SourceCategory := "",
    Tags := [], ProcessingRules := [], AutoMultiLine := false,
    AutoMultiLineSampleSize := 0, AutoMultiLineMatchThreshold := 0.0 }

/-- A collaborator that always succeeds (the behaviour of the spec-modelled
collaborators on an empty or all-valid rule list). -/
def okRules {α : Type} : List α → Except String Unit :=
  rulesFold (fun _ => Except.ok ())

/-- A wildcard-containing path is in particular non-empty. -/
theorem path_ne_of_containsWildcard {p : String}
    (h : ContainsWildcard p = true) : p ≠ "" := by
  intro hp
  subst hp
  exact absurd h (by decide)

/-- Claim C4: for each of the four canonical tailing-mode strings,
resolving with `TailingModeFromString` reports success and rendering the
resulting mode with `TailingModeToString` yields the identical string. -/
theorem C4_resolve_render_roundtrip :
    (TailingModeFromString "forceBeginning" = (TailingMode.ForceBeginning, true) ∧
      TailingModeToString (TailingModeFromString "forceBeginning").1 = "forceBeginning") ∧
    (TailingModeFromString "forceEnd" = (TailingMode.ForceEnd, true) ∧
      TailingModeToString (TailingModeFromString "forceEnd").1 = "forceEnd") ∧
    (TailingModeFromString "beginning" = (TailingMode.Beginning, true) ∧
      TailingModeToString (TailingModeFromString "beginning").1 = "beginning") ∧
    (TailingModeFromString "end" = (TailingMode.End, true) ∧
      TailingModeToString (TailingModeFromString "end").1 = "end") := by
  decide

/-- Claim C5: `TailingModeFromString` on the empty string and on a string
outside the four-entry table returns `End` with a false found-indicator,
while the explicit string "end" returns `End` with a true found-indicator,
so the two cases are distinguishable by the indicator. -/
theorem C5_default_on_miss_distinguishable :
    TailingModeFromString "" = (TailingMode.End, false) ∧
    TailingModeFromString "unknown-garbage" = (TailingMode.End, false) ∧
    TailingModeFromString "end" = (TailingMode.End, true) := by
  decide

/-- Claim C9: for each of the four canonical `TailingMode` values `m`,
`TailingModeFromString (TailingModeToString m) = (m, true)`: rendering
then resolving is the identity on the closed enumeration. -/
theorem C9_render_resolve_roundtrip :
    TailingModeFromString (TailingModeToString TailingMode.ForceBeginning) =
      (TailingMode.ForceBeginning, true) ∧
    TailingModeFromString (TailingModeToString TailingMode.ForceEnd) =
      (TailingMode.ForceEnd, true) ∧
    TailingModeFromString (TailingModeToString TailingMode.Beginning) =
      (TailingMode.Beginning, true) ∧
    TailingModeFromString (TailingModeToString TailingMode.End) =
      (TailingMode.End, true) := by
  decide

/-- Composition helper: a structural failure is returned by `Validate`
unchanged, for any collaborators. -/
theorem validate_err_of_structural {α : Type} (c : LogsConfig α)
    (vRules cRules : List α → Except String Unit) (e : String)
    (hs : structuralValidate c = Except.error e) :
    Validate c vRules cRules = Except.error e := by
  unfold Validate
  rw [hs]

/-- Composition helper: after the structural checks pass, a rule-validation
error is returned by `Validate` unchanged, for any compilation
collaborator. -/
theorem validate_err_of_rules {α : Type} (c : LogsConfig α)
    (vRules cRules : List α → Except String Unit) (e : String)
    (hs : structuralValidate c = Except.ok ())
    (hv : vRules c.ProcessingRules = Except.error e) :
    Validate c vRules cRules = Except.error e := by
  unfold Validate
  rw [hs]
  show (match vRules c.ProcessingRules with
    | Except.error e => Except.error e
    | Except.ok () => cRules c.ProcessingRules) = Except.error e
  rw [hv]

/-- Composition helper: `Validate` succeeds when the structural checks and
both collaborators succeed. -/
theorem validate_ok {α : Type} (c : LogsConfig α)
    (vRules cRules : List α → Except String Unit)
    (hs : structuralValidate c = Except.ok ())
    (hv : vRules c.ProcessingRules = Except.ok ())
    (hc : cRules c.ProcessingRules = Except.ok ()) :
    Validate c vRules cRules = Except.ok () := by
  unfold Validate
  rw [hs]
  show (match vRules c.ProcessingRules with
    | Except.error e => Except.error e
    | Except.ok () => cRules c.ProcessingRules) = Except.ok ()
  rw [hv]
  exact hc

/-- Claim C8: for every descriptor whose declared type is the empty string,
`Validate` fails with the missing-type error, regardless of every other
field and of the behaviour of both rule collaborators (so the check is
evaluated before any type-specific or rule check). -/
theorem C8_empty_type_fails {α : Type} (c : LogsConfig α)
    (vRules cRules : List α → Except String Unit) (h : c.type_ = "") :
    Validate c vRules cRules = Except.error missingTypeMsg := by
  unfold Validate structuralValidate
  rw [h]
  rfl

/-- Witness for C8 at a concrete descriptor whose other fields are
well-formed. -/
theorem C8_empty_type_fails_witness :
    Validate { emptyConfig with Port := 514, Path := "/var/log/app.log" }
      okRules okRules = Except.error missingTypeMsg :=
  C8_empty_type_fails _ okRules okRules (by rfl)

/-- Claim C6: for every descriptor with declared type file and an empty
path, `Validate` fails with the missing-path error, regardless of the
values of all other fields and of both rule collaborators. -/
theorem C6_file_empty_path_fails {α : Type} (c : LogsConfig α)
    (vRules cRules : List α → Except String Unit)
    (ht : c.type_ = FileType) (hp : c.Path = "") :
    Validate c vRules cRules = Except.error missingPathMsg := by
  unfold Validate structuralValidate
  rw [ht, hp]
  rfl

/-- Witness for C6 at a concrete file descriptor with empty path and other
fields populated. -/
theorem C6_file_empty_path_fails_witness :
    Validate { emptyConfig with
      type_ := "file", TailingMode := "beginning", Port := 80 }
      okRules okRules = Except.error missingPathMsg :=
  C6_file_empty_path_fails _ okRules okRules (by rfl) (by rfl)

/-- Claim C7: a tcp descriptor with port 0 fails validation with the
missing-port error; a tcp descriptor with port 514 and an empty path
passes validation when the rule collaborators accept its rule list. -/
theorem C7_tcp_port {α : Type} (c : LogsConfig α)
    (vRules cRules : List α → Except String Unit) (ht : c.type_ = TCPType) :
    (c.Port = 0 → Validate c vRules cRules = Except.error missingTCPPortMsg) ∧
    (c.Port = 514 → c.Path = "" →
      vRules c.ProcessingRules = Except.ok () →
      cRules c.ProcessingRules = Except.ok () →
      Validate c vRules cRules = Except.ok ()) := by
  constructor
  · intro hp
    unfold Validate structuralValidate
    rw [ht, hp]
    rfl
  · intro hp _ hv hc
    have hs : structuralValidate c = Except.ok () := by
      unfold structuralValidate
      rw [ht, hp]
      rfl
    unfold Validate
    rw [hs]
    show (match vRules c.ProcessingRules with
      | Except.error e => Except.error e
      | Except.ok () => cRules c.ProcessingRules) = Except.ok ()
    rw [hv]
    exact hc

/-- Witness for C7: both halves at concrete tcp descriptors (port 0,
then port 514 with empty path). -/
theorem C7_tcp_port_witness :
    Validate { emptyConfig with type_ := "tcp" } okRules okRules
      = Except.error missingTCPPortMsg ∧
    Validate { emptyConfig with type_ := "tcp", Port := 514 } okRules okRules
      = Except.ok () :=
  ⟨(C7_tcp_port { emptyConfig with type_ := "tcp" } okRules okRules
      (by rfl)).1 (by rfl),
   (C7_tcp_port { emptyConfig with type_ := "tcp", Port := 514 } okRules
      okRules (by rfl)).2 (by rfl) (by rfl) (by rfl) (by rfl)⟩

/-- Helper: a descriptor whose tailing-mode string is the canonical "end"
always passes `validateTailingMode`. -/
theorem validateTailingMode_of_end {α : Type} (d : LogsConfig α)
    (h : d.TailingMode = "end") : validateTailingMode d = Except.ok () := by
  have hres : TailingModeFromString "end" = (TailingMode.End, true) := by
    decide
  simp [validateTailingMode, h, hres]

/-- Claim C2: for every descriptor that passes all structural checks, if
the rule-validation collaborator returns an error, `Validate` returns
exactly that error, and the result does not depend on the rule-compilation
collaborator (so compilation is never invoked). -/
theorem C2_rule_error_short_circuit {α : Type} (c : LogsConfig α)
    (vRules cRules cRules2 : List α → Except String Unit) (e : String)
    (hs : structuralValidate c = Except.ok ())
    (hv : vRules c.ProcessingRules = Except.error e) :
    Validate c vRules cRules = Except.error e ∧
    Validate c vRules cRules = Validate c vRules cRules2 :=
  ⟨validate_err_of_rules c vRules cRules e hs hv,
   (validate_err_of_rules c vRules cRules e hs hv).trans
     (validate_err_of_rules c vRules cRules2 e hs hv).symm⟩

/-- Witness for C2 at a concrete docker descriptor, a failing
rule-validation collaborator and two different compilation
collaborators. -/
theorem C2_rule_error_short_circuit_witness :
    Validate ({ emptyConfig with type_ := "docker" })
      (fun _ => Except.error "boom") okRules = Except.error "boom" ∧
    Validate ({ emptyConfig with type_ := "docker" })
      (fun _ => Except.error "boom") okRules =
    Validate ({ emptyConfig with type_ := "docker" })
      (fun _ => Except.error "boom") (fun _ => Except.error "other") :=
  C2_rule_error_short_circuit { emptyConfig with type_ := "docker" }
    (fun _ => Except.error "boom") okRules (fun _ => Except.error "other")
    "boom" (by rfl) (by rfl)

/-- Claim C3: a file descriptor with a wildcard path whose tailing-mode
string resolves to `Beginning` or `ForceBeginning` fails validation with
the unsupported-wildcard-tailing error naming the path, while the same
descriptor with tailing mode "end" passes validation when the rule
collaborators accept its rule list. -/
theorem C3_wildcard_beginning {α : Type} (c : LogsConfig α)
    (vRules cRules : List α → Except String Unit)
    (ht : c.type_ = FileType) (hw : ContainsWildcard c.Path = true) :
    ((TailingModeFromString c.TailingMode = (TailingMode.Beginning, true) ∨
      TailingModeFromString c.TailingMode = (TailingMode.ForceBeginning, true)) →
      Validate c vRules cRules = Except.error (wildcardTailingMsg c.Path)) ∧
    (vRules c.ProcessingRules = Except.ok () →
      cRules c.ProcessingRules = Except.ok () →
      Validate { c with TailingMode := "end" } vRules cRules =
        Except.ok ()) := by
  have hpne : c.Path ≠ "" := path_ne_of_containsWildcard hw
  constructor
  · intro hm
    apply validate_err_of_structural
    have hvt : validateTailingMode c =
        Except.error (wildcardTailingMsg c.Path) := by
      rcases hm with h | h <;> simp [validateTailingMode, h, hw]
    simp [structuralValidate, ht, FileType, TCPType, UDPType, hpne, hvt]
  · intro hv hc
    apply validate_ok
    · simp [structuralValidate, ht, FileType, TCPType, UDPType, hpne,
        validateTailingMode_of_end]
    · exact hv
    · exact hc

/-- Witness for C3 at the spec's example path, with tailing mode
"beginning" and then "end". -/
theorem C3_wildcard_beginning_witness :
    Validate { emptyConfig with
      type_ := "file", Path := "/var/log/app/*.log",
      TailingMode := "beginning" } okRules okRules =
      Except.error (wildcardTailingMsg "/var/log/app/*.log") ∧
    Validate { emptyConfig with
      type_ := "file", Path := "/var/log/app/*.log",
      TailingMode := "end" } okRules okRules = Except.ok () :=
  ⟨(C3_wildcard_beginning { emptyConfig with
      type_ := "file", Path := "/var/log/app/*.log",
      TailingMode := "beginning" } okRules okRules (by rfl) (by decide)).1
      (Or.inl (by decide)),
   (C3_wildcard_beginning { emptyConfig with
      type_ := "file", Path := "/var/log/app/*.log",
      TailingMode := "beginning" } okRules okRules (by rfl) (by decide)).2
      (by rfl) (by rfl)⟩

/-- Claim C10: for two descriptors agreeing on every field except
`TailingMode` and `Path`, whose shared declared type is tcp with a
non-zero shared port, `Validate` produces the same result; in particular
an unrecognized tailing-mode string or a wildcard path never makes a tcp
descriptor fail. -/
theorem C10_tcp_ignores_file_fields {α : Type} (c : LogsConfig α)
    (p p2 t t2 : String) (vRules cRules : List α → Except String Unit)
    (ht : c.type_ = TCPType) (hp : c.Port ≠ 0) :
    Validate { c with Path := p, TailingMode := t } vRules cRules =
    Validate { c with Path := p2, TailingMode := t2 } vRules cRules := by
  have hs : ∀ q u,
      structuralValidate { c with Path := q, TailingMode := u } =
        Except.ok () := by
    intro q u
    simp [structuralValidate, ht, TCPType, UDPType, FileType, hp]
  unfold Validate
  rw [hs p t, hs p2 t2]

/-- Witness for C10: a tcp descriptor with port 514 validates identically
with a wildcard path plus garbage tailing mode and with an empty path plus
tailing mode "end". -/
theorem C10_tcp_ignores_file_fields_witness :
    Validate { emptyConfig with
      type_ := "tcp", Port := 514, Path := "/a/*.log",
      TailingMode := "garbage" } okRules okRules =
    Validate { emptyConfig with
      type_ := "tcp", Port := 514, Path := "",
      TailingMode := "end" } okRules okRules :=
  C10_tcp_ignores_file_fields { emptyConfig with type_ := "tcp", Port := 514 }
    "/a/*.log" "" "garbage" "end" okRules okRules (by rfl) (by decide)

/-- Claim C1 counterexample: the declared type "bogus" is non-empty and
outside the fixed set of source-type tags, yet `Validate` succeeds on a
descriptor carrying it (with collaborators that accept its empty rule
list), so validation does not require membership in the fixed set. -/
theorem C1_counterexample_unknown_type_passes :
    ({ emptyConfig with type_ := "bogus" } : LogsConfig Unit).type_ = "bogus" ∧
    ("bogus" : String) ≠ "" ∧
    ("bogus" : String) ∉ sourceTypeTags ∧
    Validate { emptyConfig with type_ := "bogus" } okRules okRules =
      Except.ok () :=
  ⟨rfl, by decide, by decide, by rfl⟩

/-- Claim C1 (amended): `Validate` succeeds only if the declared type is
non-empty; membership in the fixed set of source-type tags is not
checked. -/
theorem C1_amended_nonempty_type {α : Type} (c : LogsConfig α)
    (vRules cRules : List α → Except String Unit)
    (h : Validate c vRules cRules = Except.ok ()) : c.type_ ≠ "" := by
  intro he
  have hs : structuralValidate c = Except.error missingTypeMsg := by
    unfold structuralValidate
    rw [he]
    rfl
  have h2 := validate_err_of_structural c vRules cRules missingTypeMsg hs
  rw [h] at h2
  simp at h2

/-- Witness for the amended C1 at a concrete tcp descriptor that
validates successfully. -/
theorem C1_amended_nonempty_type_witness :
    ({ emptyConfig with type_ := "tcp", Port := 514 } : LogsConfig Unit).type_
      ≠ "" :=
  C1_amended_nonempty_type { emptyConfig with type_ := "tcp", Port := 514 }
    okRules okRules (by rfl)

end Logs
